import Mathlib

/-!
Shallow embedding of the DPD Journals marketing backend
(src/dpd_journals_marketing_app_fixed/app.py).

Modelling conventions:
* An ISO-8601 UTC timestamp is modelled as a calendar day (Int) together
  with a second-of-day (Nat); sqlite's datetime()/date() comparisons of
  ISO strings are chronological, i.e. lexicographic on (day, sec), and
  date(ts) / ts[:10] is the day component.
* uuid4-generated row ids are opaque random values that no query or
  handler ever reads back; they are elided from the record types.
* Each sqlite table is a list of typed rows inside a single Store value;
  every handler becomes a pure function on Store.  The dispatch job's
  snapshot datetime.utcnow() is passed as an explicit argument.
-/

/-- A UTC timestamp: calendar day plus second-of-day (ISO string order). -/
structure Timestamp where
  day : Int
  sec : Nat
  deriving DecidableEq, Repr

/-- Chronological comparison of timestamps; this is what sqlite's
datetime(a) <= datetime(b) computes on ISO-8601 strings. -/
def timeLe (a b : Timestamp) : Bool :=
  decide (a.day < b.day ∨ (a.day = b.day ∧ a.sec ≤ b.sec))

/-- A row of the metrics table (the Event record); uuid id elided. -/
structure Event where
  ts : Timestamp
  source : Option String
  medium : Option String
  campaign : Option String
  content : Option String
  term : Option String
  ip : Option String
  user_agent : Option String
  referrer : Option String
  deriving DecidableEq, Repr

/-- A row of the social_posts table; uuid id elided. -/
structure SocialPost where
  channel : String
  content : String
  scheduled_at : Timestamp
  status : String
  sent_at : Option Timestamp
  deriving DecidableEq, Repr

/-- A row of the email_campaigns table; uuid id elided. -/
structure EmailCampaign where
  subject : String
  body : String
  to_list : String
  scheduled_at : Timestamp
  status : String
  sent_at : Option Timestamp
  deriving DecidableEq, Repr

/-- A row of the blog_posts table; uuid id elided. -/
structure BlogPost where
  slug : String
  title : String
  body : String
  created_at : Timestamp
  updated_at : Timestamp
  deriving DecidableEq, Repr

/-- The whole sqlite database. -/
structure Store where
  metrics : List Event
  social_posts : List SocialPost
  email_campaigns : List EmailCampaign
  blog_posts : List BlogPost
  deriving DecidableEq, Repr

/-- The empty database produced by init_db. -/
def emptyStore : Store := ⟨[], [], [], []⟩

/-- Python string slicing s[:n] (character-based). -/
def strTake (n : Nat) (s : String) : String := ⟨s.data.take n⟩

/-- WHERE clause of the social sweep query:
status='scheduled' AND datetime(scheduled_at) <= datetime(now). -/
def socialDue (now : Timestamp) (p : SocialPost) : Bool :=
  p.status == "scheduled" && timeLe p.scheduled_at now

/-- WHERE clause of the email sweep query. -/
def emailDue (now : Timestamp) (c : EmailCampaign) : Bool :=
  c.status == "scheduled" && timeLe c.scheduled_at now

/-- UPDATE social_posts SET status='sent', sent_at=now WHERE id=row id. -/
def promoteSocial (now : Timestamp) (p : SocialPost) : SocialPost :=
  { p with status := "sent", sent_at := some now }

/-- UPDATE email_campaigns SET status='sent', sent_at=now WHERE id=row id. -/
def promoteEmail (now : Timestamp) (c : EmailCampaign) : EmailCampaign :=
  { c with status := "sent", sent_at := some now }

/-- add_metric call of the social dispatch loop: ts=now, source=channel,
medium="social", campaign="scheduled_social", content=content[:100]. -/
def socialEvent (now : Timestamp) (p : SocialPost) : Event :=
  { ts := now, source := some p.channel, medium := some "social",
    campaign := some "scheduled_social", content := some (strTake 100 p.content),
    term := none, ip := none, user_agent := none, referrer := none }

/-- add_metric call of the email dispatch loop: ts=now, source="email",
medium="email", campaign="scheduled_email", content=subject[:100]. -/
def emailEvent (now : Timestamp) (c : EmailCampaign) : Event :=
  { ts := now, source := some "email", medium := some "email",
    campaign := some "scheduled_email", content := some (strTake 100 c.subject),
    term := none, ip := none, user_agent := none, referrer := none }

/-- The metric rows appended during one sweep: one per fetched due social
row (in table order), then one per fetched due email row. -/
def dispatchEvents (now : Timestamp) (s : Store) : List Event :=
  (s.social_posts.filter (socialDue now)).map (socialEvent now)
    ++ (s.email_campaigns.filter (emailDue now)).map (emailEvent now)

/-- process_due_items: snapshot now once; fetch due social rows, promote
each by id and append one metric; then the same for emails.  fetchall
materialises the row set before any update, and ids are primary keys, so
the loop's effect on each table is the pointwise promotion of the rows
matching the WHERE clause. -/
def process_due_items (now : Timestamp) (s : Store) : Store :=
  { s with
    social_posts :=
      s.social_posts.map (fun p => if socialDue now p then promoteSocial now p else p),
    email_campaigns :=
      s.email_campaigns.map (fun c => if emailDue now c then promoteEmail now c else c),
    metrics := s.metrics ++ dispatchEvents now s }

/-- Request body of POST /api/schedule/social. -/
structure SocialSchedule where
  channel : String
  content : String
  scheduled_at : Timestamp
  deriving DecidableEq, Repr

/-- Request body of POST /api/schedule/email. -/
structure EmailSchedule where
  subject : String
  body : String
  to_list : String
  scheduled_at : Timestamp
  deriving DecidableEq, Repr

/-- Request body of POST /api/blog. -/
structure BlogInput where
  slug : String
  title : String
  body : String
  deriving DecidableEq, Repr

/-- POST /api/schedule/social: INSERT with status 'scheduled', sent_at NULL. -/
def schedule_social (item : SocialSchedule) (s : Store) : Store :=
  { s with social_posts :=
      s.social_posts ++ [⟨item.channel, item.content, item.scheduled_at, "scheduled", none⟩] }

/-- POST /api/schedule/email: INSERT with status 'scheduled', sent_at NULL. -/
def schedule_email (item : EmailSchedule) (s : Store) : Store :=
  { s with email_campaigns :=
      s.email_campaigns ++ [⟨item.subject, item.body, item.to_list, item.scheduled_at, "scheduled", none⟩] }

/-- Outcome of POST /api/blog: ok:True, or ok:False "Slug already exists". -/
inductive CreateBlogResult where
  | published
  | duplicateSlug
  deriving DecidableEq, Repr

/-- POST /api/blog: INSERT the post; a UNIQUE(slug) violation raises
sqlite3.IntegrityError, which the handler turns into the duplicate-slug
reply without committing anything. -/
def create_blog (now : Timestamp) (post : BlogInput) (s : Store) : Store × CreateBlogResult :=
  if s.blog_posts.any (fun b => b.slug == post.slug) then
    (s, .duplicateSlug)
  else
    ({ s with blog_posts := s.blog_posts ++ [⟨post.slug, post.title, post.body, now, now⟩] },
     .published)

/-- GET /api/metrics/summary: start = (utcnow - (days-1)).date();
SELECT ts WHERE date(ts) >= start; zero-init a bucket per day of
range(days); count each fetched row into its date bucket if present;
return the buckets sorted ascending by date. -/
def metrics_summary (now : Timestamp) (days : Int) (s : Store) : List (Int × Nat) :=
  let start : Int := now.day - (days - 1)
  let rows := s.metrics.filter (fun e => decide (start ≤ e.ts.day))
  (List.range days.toNat).map
    (fun (i : Nat) =>
      (start + (i : Int), (rows.filter (fun e => e.ts.day == start + (i : Int))).length))

/-- Query parameters and request headers of GET /track. -/
structure TrackParams where
  utm_source : Option String
  utm_medium : Option String
  utm_campaign : Option String
  utm_content : Option String
  utm_term : Option String
  ip : Option String
  user_agent : Option String
  referrer : Option String
  deriving DecidableEq, Repr

/-- The Event that add_metric inserts for a tracking hit (ts defaults to
now_iso()). -/
def trackEvent (now : Timestamp) (p : TrackParams) : Event :=
  { ts := now, source := p.utm_source, medium := p.utm_medium,
    campaign := p.utm_campaign, content := p.utm_content, term := p.utm_term,
    ip := p.ip, user_agent := p.user_agent, referrer := p.referrer }

/-- GIF_BYTES: the fixed 43-byte 1x1 transparent GIF payload. -/
def GIF_BYTES : List Nat :=
  [0x47, 0x49, 0x46, 0x38, 0x39, 0x61, 0x01, 0x00, 0x01, 0x00, 0x80, 0x00,
   0x00, 0x00, 0x00, 0x00, 0xff, 0xff, 0xff, 0x21, 0xf9, 0x04, 0x01, 0x00,
   0x00, 0x00, 0x00, 0x2c, 0x00, 0x00, 0x00, 0x00, 0x01, 0x00, 0x01, 0x00,
   0x00, 0x02, 0x02, 0x44, 0x01, 0x00, 0x3b]

/-- An HTTP response body with its media type. -/
structure PixelResponse where
  content : List Nat
  media_type : String
  deriving DecidableEq, Repr

/-- The response GET /track builds when it reaches its return statement. -/
def gifResponse : PixelResponse := ⟨GIF_BYTES, "image/gif"⟩

/-- A backing-store fault (sqlite3 error raised by an INSERT). -/
inductive StorageFailure where
  | storageFailure
  deriving DecidableEq, Repr

/-- GET /track: add_metric, then return the GIF.  writeFails models
whether the sqlite INSERT inside add_metric raises; the handler has no
except block, so a raised error propagates out of track and the GIF
response is never built. -/
def track (writeFails : Bool) (now : Timestamp) (p : TrackParams) (s : Store) :
    Except StorageFailure (Store × PixelResponse) :=
  if writeFails then
    .error .storageFailure
  else
    .ok ({ s with metrics := s.metrics ++ [trackEvent now p] }, gifResponse)

/-- The response an Except-valued handler delivered, if any. -/
def respOf (r : Except StorageFailure (Store × PixelResponse)) : Option PixelResponse :=
  match r with
  | .ok (_, resp) => some resp
  | .error _ => none

/-- ORDER BY updated_at DESC over blog_posts (sqlite orders the TEXT
ISO timestamps, i.e. chronologically; ties in unspecified order). -/
def sortPostsDesc (l : List BlogPost) : List BlogPost :=
  l.insertionSort (fun a b => timeLe b.updated_at a.updated_at = true)

/-- One url entry of /sitemap.xml. -/
structure SitemapEntry where
  loc : String
  lastmod : Timestamp
  deriving DecidableEq, Repr

/-- GET /sitemap.xml: SELECT slug, updated_at ORDER BY updated_at DESC,
one url entry per row. -/
def sitemap (base : String) (s : Store) : List SitemapEntry :=
  (sortPostsDesc s.blog_posts).map (fun p => ⟨base ++ "/blog/" ++ p.slug, p.updated_at⟩)

/-- One item of /rss.xml. -/
structure RssItem where
  title : String
  link : String
  description : String
  deriving DecidableEq, Repr

/-- GET /rss.xml: SELECT ... ORDER BY updated_at DESC LIMIT 20, one item
per row, description = body[:400] followed by a literal ellipsis. -/
def rss (base : String) (s : Store) : List RssItem :=
  ((sortPostsDesc s.blog_posts).take 20).map
    (fun p => ⟨p.title, base ++ "/blog/" ++ p.slug, strTake 400 p.body ++ "..."⟩)

/-- The scheduled/sent bookkeeping invariant: a schedulable row has
sent_at NULL exactly when its status is 'scheduled'. -/
def StoreInv (s : Store) : Prop :=
  (∀ p ∈ s.social_posts, p.sent_at = none ↔ p.status = "scheduled")
    ∧ (∀ c ∈ s.email_campaigns, c.sent_at = none ↔ c.status = "scheduled")

/-- The Store successfully committed by GET /track. -/
def trackOk (now : Timestamp) (p : TrackParams) (s : Store) : Store :=
  { s with metrics := s.metrics ++ [trackEvent now p] }

/-- Stores reachable from the fresh database through the app's write
paths (tracking hits, scheduling, blog creation, dispatch sweeps). -/
inductive Reachable : Store → Prop where
  | init : Reachable emptyStore
  | step_track (now : Timestamp) (p : TrackParams) {s : Store} :
      Reachable s → Reachable (trackOk now p s)
  | step_social (item : SocialSchedule) {s : Store} :
      Reachable s → Reachable (schedule_social item s)
  | step_email (item : EmailSchedule) {s : Store} :
      Reachable s → Reachable (schedule_email item s)
  | step_blog (now : Timestamp) (post : BlogInput) {s : Store} :
      Reachable s → Reachable (create_blog now post s).1
  | step_dispatch (now : Timestamp) {s : Store} :
      Reachable s → Reachable (process_due_items now s)

/-! Helper lemmas about the embedded operations. -/

theorem timeLe_total (a b : Timestamp) : timeLe a b = true ∨ timeLe b a = true := by
  simp only [timeLe, decide_eq_true_eq]
  omega

theorem timeLe_trans (a b c : Timestamp) (hab : timeLe a b = true) (hbc : timeLe b c = true) :
    timeLe a c = true := by
  simp only [timeLe, decide_eq_true_eq] at hab hbc ⊢
  omega

theorem strTake_length_le (n : Nat) (s : String) : (strTake n s).length ≤ n := by
  show (s.data.take n).length ≤ n
  rw [List.length_take]
  exact min_le_left _ _

theorem sent_ne_scheduled : ¬ ("sent" : String) = "scheduled" := by decide

theorem socialDue_promoteSocial (now now2 : Timestamp) (p : SocialPost) :
    socialDue now2 (promoteSocial now p) = false := by
  simp only [socialDue, promoteSocial]
  rw [show (("sent" : String) == "scheduled") = false by decide, Bool.false_and]

theorem emailDue_promoteEmail (now now2 : Timestamp) (c : EmailCampaign) :
    emailDue now2 (promoteEmail now c) = false := by
  simp only [emailDue, promoteEmail]
  rw [show (("sent" : String) == "scheduled") = false by decide, Bool.false_and]

theorem socialDue_of (now : Timestamp) (p : SocialPost) (h1 : p.status = "scheduled")
    (h2 : timeLe p.scheduled_at now = true) : socialDue now p = true := by
  simp [socialDue, h1, h2]

theorem emailDue_of (now : Timestamp) (c : EmailCampaign) (h1 : c.status = "scheduled")
    (h2 : timeLe c.scheduled_at now = true) : emailDue now c = true := by
  simp [emailDue, h1, h2]

theorem sweep_social_getElem (now : Timestamp) (s : Store) (i : Nat) :
    (process_due_items now s).social_posts[i]? =
      Option.map (fun p => if socialDue now p then promoteSocial now p else p)
        s.social_posts[i]? := by
  simp [process_due_items, List.getElem?_map]

theorem sweep_email_getElem (now : Timestamp) (s : Store) (i : Nat) :
    (process_due_items now s).email_campaigns[i]? =
      Option.map (fun c => if emailDue now c then promoteEmail now c else c)
        s.email_campaigns[i]? := by
  simp [process_due_items, List.getElem?_map]

theorem sweep_social_not_due (now : Timestamp) (s : Store) :
    ∀ p ∈ (process_due_items now s).social_posts, socialDue now p = false := by
  intro p hp
  simp only [process_due_items, List.mem_map] at hp
  obtain ⟨q, _, rfl⟩ := hp
  by_cases hd : socialDue now q
  · simp [hd, socialDue_promoteSocial]
  · simp [hd]

theorem sweep_email_not_due (now : Timestamp) (s : Store) :
    ∀ c ∈ (process_due_items now s).email_campaigns, emailDue now c = false := by
  intro c hc
  simp only [process_due_items, List.mem_map] at hc
  obtain ⟨q, _, rfl⟩ := hc
  by_cases hd : emailDue now q
  · simp [hd, emailDue_promoteEmail]
  · simp [hd]

theorem sweep_idem (now : Timestamp) (s : Store) :
    process_due_items now (process_due_items now s) = process_due_items now s := by
  have hs : ∀ p ∈ (process_due_items now s).social_posts, socialDue now p = false :=
    sweep_social_not_due now s
  have he : ∀ c ∈ (process_due_items now s).email_campaigns, emailDue now c = false :=
    sweep_email_not_due now s
  have h1 : (process_due_items now s).social_posts.map
      (fun p => if socialDue now p then promoteSocial now p else p)
        = (process_due_items now s).social_posts := by
    rw [List.map_congr_left (g := id) (fun p hp => by simp [hs p hp]), List.map_id]
  have h2 : (process_due_items now s).email_campaigns.map
      (fun c => if emailDue now c then promoteEmail now c else c)
        = (process_due_items now s).email_campaigns := by
    rw [List.map_congr_left (g := id) (fun c hc => by simp [he c hc]), List.map_id]
  have h3 : dispatchEvents now (process_due_items now s) = [] := by
    simp only [dispatchEvents, List.append_eq_nil, List.map_eq_nil_iff]
    constructor
    · exact List.filter_eq_nil_iff.mpr (fun p hp => by simp [hs p hp])
    · exact List.filter_eq_nil_iff.mpr (fun c hc => by simp [he c hc])
  show ({ process_due_items now s with
      social_posts := _, email_campaigns := _, metrics := _ } : Store) = process_due_items now s
  rw [h1, h2, h3, List.append_nil]

/-! Concrete fixtures used by the witnesses. -/

def wNow : Timestamp := ⟨10, 0⟩

def wLater : Timestamp := ⟨11, 0⟩

def wPost : SocialPost := ⟨"X", "hello world", ⟨9, 30⟩, "scheduled", none⟩

def wPostFuture : SocialPost := ⟨"LinkedIn", "later post", ⟨12, 0⟩, "scheduled", none⟩

def wMail : EmailCampaign := ⟨"Subject line", "Body", "a@b.c", ⟨10, 0⟩, "scheduled", none⟩

def wMailFuture : EmailCampaign := ⟨"S2", "B2", "x@y.z", ⟨12, 0⟩, "scheduled", none⟩

def wStore : Store := ⟨[], [wPost, wPostFuture], [wMail, wMailFuture], []⟩

/-- C1: a scheduled social/email item with scheduled_at ≤ the sweep's
snapshot becomes sent with sent_at = sweep time, contributing exactly one
Event (the sweep appends one Event per due row, and the item is a due
row); a repeated sweep is a no-op on the whole state at the same
snapshot, and at any other snapshot the promoted item is no longer due
and its row is unchanged. -/
theorem dispatch_due_item_correct (now now2 : Timestamp) (s : Store) :
    (∀ (i : Nat) (p : SocialPost), s.social_posts[i]? = some p → p.status = "scheduled" →
        timeLe p.scheduled_at now = true →
        (process_due_items now s).social_posts[i]? = some (promoteSocial now p) ∧
        (promoteSocial now p).status = "sent" ∧
        (promoteSocial now p).sent_at = some now ∧
        p ∈ s.social_posts.filter (socialDue now) ∧
        socialDue now2 (promoteSocial now p) = false ∧
        (process_due_items now2 (process_due_items now s)).social_posts[i]? =
          some (promoteSocial now p)) ∧
    (∀ (i : Nat) (c : EmailCampaign), s.email_campaigns[i]? = some c → c.status = "scheduled" →
        timeLe c.scheduled_at now = true →
        (process_due_items now s).email_campaigns[i]? = some (promoteEmail now c) ∧
        (promoteEmail now c).status = "sent" ∧
        (promoteEmail now c).sent_at = some now ∧
        c ∈ s.email_campaigns.filter (emailDue now) ∧
        emailDue now2 (promoteEmail now c) = false ∧
        (process_due_items now2 (process_due_items now s)).email_campaigns[i]? =
          some (promoteEmail now c)) ∧
    (process_due_items now s).metrics.length =
      s.metrics.length + (s.social_posts.filter (socialDue now)).length
        + (s.email_campaigns.filter (emailDue now)).length ∧
    process_due_items now (process_due_items now s) = process_due_items now s := by
  refine ⟨?_, ?_, ?_, sweep_idem now s⟩
  · intro i p hip h1 h2
    have hdue : socialDue now p = true := socialDue_of now p h1 h2
    have hmem : p ∈ s.social_posts := List.getElem?_mem hip
    have hget : (process_due_items now s).social_posts[i]? = some (promoteSocial now p) := by
      rw [sweep_social_getElem, hip]
      simp [hdue]
    refine ⟨hget, rfl, rfl, List.mem_filter.mpr ⟨hmem, hdue⟩,
      socialDue_promoteSocial now now2 p, ?_⟩
    rw [sweep_social_getElem, hget]
    simp [socialDue_promoteSocial]
  · intro i c hic h1 h2
    have hdue : emailDue now c = true := emailDue_of now c h1 h2
    have hmem : c ∈ s.email_campaigns := List.getElem?_mem hic
    have hget : (process_due_items now s).email_campaigns[i]? = some (promoteEmail now c) := by
      rw [sweep_email_getElem, hic]
      simp [hdue]
    refine ⟨hget, rfl, rfl, List.mem_filter.mpr ⟨hmem, hdue⟩,
      emailDue_promoteEmail now now2 c, ?_⟩
    rw [sweep_email_getElem, hget]
    simp [emailDue_promoteEmail]
  · simp only [process_due_items, dispatchEvents, List.length_append, List.length_map]
    omega

/-- Witness for C1 on a concrete database: a due social post and a due
email campaign are promoted, and the sweep is idempotent. -/
theorem dispatch_due_item_correct_witness :
    (process_due_items wNow wStore).social_posts[0]? = some (promoteSocial wNow wPost) ∧
    (process_due_items wNow wStore).email_campaigns[0]? = some (promoteEmail wNow wMail) ∧
    process_due_items wNow (process_due_items wNow wStore) = process_due_items wNow wStore :=
  ⟨((dispatch_due_item_correct wNow wLater wStore).1 0 wPost (by decide)
      (by decide) (by decide)).1,
   ((dispatch_due_item_correct wNow wLater wStore).2.1 0 wMail (by decide)
      (by decide) (by decide)).1,
   (dispatch_due_item_correct wNow wLater wStore).2.2.2⟩

/-- C2: a social/email item whose scheduled_at is strictly after the
sweep's snapshot is not selected by the sweep query, its row is left
byte-for-byte unchanged, and it is not among the due rows for which an
Event is appended. -/
theorem sweep_leaves_future_item (now : Timestamp) (s : Store) :
    (∀ (i : Nat) (p : SocialPost), s.social_posts[i]? = some p → timeLe p.scheduled_at now = false →
        (process_due_items now s).social_posts[i]? = some p ∧
        socialDue now p = false ∧
        p ∉ s.social_posts.filter (socialDue now)) ∧
    (∀ (i : Nat) (c : EmailCampaign), s.email_campaigns[i]? = some c → timeLe c.scheduled_at now = false →
        (process_due_items now s).email_campaigns[i]? = some c ∧
        emailDue now c = false ∧
        c ∉ s.email_campaigns.filter (emailDue now)) := by
  constructor
  · intro i p hip h2
    have hndue : socialDue now p = false := by simp [socialDue, h2]
    refine ⟨?_, hndue, ?_⟩
    · rw [sweep_social_getElem, hip]
      simp [hndue]
    · intro hmem
      have := (List.mem_filter.mp hmem).2
      rw [hndue] at this
      exact Bool.noConfusion this
  · intro i c hic h2
    have hndue : emailDue now c = false := by simp [emailDue, h2]
    refine ⟨?_, hndue, ?_⟩
    · rw [sweep_email_getElem, hic]
      simp [hndue]
    · intro hmem
      have := (List.mem_filter.mp hmem).2
      rw [hndue] at this
      exact Bool.noConfusion this

/-- Witness for C2 on a concrete database: the future-dated social post
and email campaign survive the sweep unchanged. -/
theorem sweep_leaves_future_item_witness :
    (process_due_items wNow wStore).social_posts[1]? = some wPostFuture ∧
    (process_due_items wNow wStore).email_campaigns[1]? = some wMailFuture :=
  ⟨((sweep_leaves_future_item wNow wStore).1 1 wPostFuture (by decide) (by decide)).1,
   ((sweep_leaves_future_item wNow wStore).2 1 wMailFuture (by decide) (by decide)).1⟩

/-- C6: one sweep works off a single snapshot time: every Event appended
by the sweep is stamped with that snapshot, and every social/email row
the sweep modifies was selected by scheduled_at ≤ snapshot and gets
sent_at = that same snapshot, for both item kinds. -/
theorem sweep_single_snapshot (now : Timestamp) (s : Store) :
    (∀ e ∈ dispatchEvents now s, e.ts = now) ∧
    (∀ (i : Nat) (p : SocialPost), s.social_posts[i]? = some p →
        (process_due_items now s).social_posts[i]? ≠ some p →
        timeLe p.scheduled_at now = true ∧
        (process_due_items now s).social_posts[i]? = some (promoteSocial now p) ∧
        (promoteSocial now p).sent_at = some now) ∧
    (∀ (i : Nat) (c : EmailCampaign), s.email_campaigns[i]? = some c →
        (process_due_items now s).email_campaigns[i]? ≠ some c →
        timeLe c.scheduled_at now = true ∧
        (process_due_items now s).email_campaigns[i]? = some (promoteEmail now c) ∧
        (promoteEmail now c).sent_at = some now) := by
  refine ⟨?_, ?_, ?_⟩
  · intro e he
    rcases List.mem_append.mp he with h | h
    · obtain ⟨q, _, rfl⟩ := List.mem_map.mp h
      rfl
    · obtain ⟨q, _, rfl⟩ := List.mem_map.mp h
      rfl
  · intro i p hip hne
    by_cases hd : socialDue now p
    · have hsplit : p.status = "scheduled" ∧ timeLe p.scheduled_at now = true := by
        simpa [socialDue] using hd
      refine ⟨hsplit.2, ?_, rfl⟩
      rw [sweep_social_getElem, hip]
      simp [hd]
    · exfalso
      apply hne
      rw [sweep_social_getElem, hip]
      simp [hd]
  · intro i c hic hne
    by_cases hd : emailDue now c
    · have hsplit : c.status = "scheduled" ∧ timeLe c.scheduled_at now = true := by
        simpa [emailDue] using hd
      refine ⟨hsplit.2, ?_, rfl⟩
      rw [sweep_email_getElem, hic]
      simp [hd]
    · exfalso
      apply hne
      rw [sweep_email_getElem, hic]
      simp [hd]

/-- Witness for C6: on the concrete database, the appended social Event
carries the snapshot time, and the modified social row was due and got
the snapshot as sent_at. -/
theorem sweep_single_snapshot_witness :
    (socialEvent wNow wPost).ts = wNow ∧
    timeLe wPost.scheduled_at wNow = true ∧
    (promoteSocial wNow wPost).sent_at = some wNow :=
  ⟨(sweep_single_snapshot wNow wStore).1 (socialEvent wNow wPost) (by decide),
   ((sweep_single_snapshot wNow wStore).2.1 0 wPost (by decide) (by decide)).1,
   ((sweep_single_snapshot wNow wStore).2.1 0 wPost (by decide) (by decide)).2.2⟩

/-- C7: every Event the sweep appends comes from a due social row
(medium "social", campaign "scheduled_social", content = row content
truncated to at most 100 characters) or from a due email row (medium
"email", campaign "scheduled_email", content = subject truncated to at
most 100 characters). -/
theorem dispatch_event_fields (now : Timestamp) (s : Store) :
    ∀ e ∈ dispatchEvents now s,
      (∃ p, p ∈ s.social_posts ∧ socialDue now p = true ∧ e = socialEvent now p ∧
        e.medium = some "social" ∧ e.campaign = some "scheduled_social" ∧
        e.content = some (strTake 100 p.content) ∧ (strTake 100 p.content).length ≤ 100) ∨
      (∃ c, c ∈ s.email_campaigns ∧ emailDue now c = true ∧ e = emailEvent now c ∧
        e.medium = some "email" ∧ e.campaign = some "scheduled_email" ∧
        e.content = some (strTake 100 c.subject) ∧ (strTake 100 c.subject).length ≤ 100) := by
  intro e he
  rcases List.mem_append.mp he with h | h
  · left
    obtain ⟨p, hp, rfl⟩ := List.mem_map.mp h
    have hm := List.mem_filter.mp hp
    exact ⟨p, hm.1, hm.2, rfl, rfl, rfl, rfl, strTake_length_le 100 p.content⟩
  · right
    obtain ⟨c, hc, rfl⟩ := List.mem_map.mp h
    have hm := List.mem_filter.mp hc
    exact ⟨c, hm.1, hm.2, rfl, rfl, rfl, rfl, strTake_length_le 100 c.subject⟩

/-- Witness for C7: the concrete sweep's first appended Event is tagged
and truncated as a social dispatch Event. -/
theorem dispatch_event_fields_witness :
    (∃ p, p ∈ wStore.social_posts ∧ socialDue wNow p = true ∧
        socialEvent wNow wPost = socialEvent wNow p ∧
        (socialEvent wNow wPost).medium = some "social" ∧
        (socialEvent wNow wPost).campaign = some "scheduled_social" ∧
        (socialEvent wNow wPost).content = some (strTake 100 p.content) ∧
        (strTake 100 p.content).length ≤ 100) ∨
      (∃ c, c ∈ wStore.email_campaigns ∧ emailDue wNow c = true ∧
        socialEvent wNow wPost = emailEvent wNow c ∧
        (socialEvent wNow wPost).medium = some "email" ∧
        (socialEvent wNow wPost).campaign = some "scheduled_email" ∧
        (socialEvent wNow wPost).content = some (strTake 100 c.subject) ∧
        (strTake 100 c.subject).length ≤ 100) :=
  dispatch_event_fields wNow wStore (socialEvent wNow wPost) (by decide)

/-! Invariant-preservation helpers for the sent_at/status invariant. -/

theorem storeInv_empty : StoreInv emptyStore := by
  refine ⟨?_, ?_⟩ <;> intro x hx <;> exact absurd hx (by simp [emptyStore])

theorem storeInv_trackOk (now : Timestamp) (p : TrackParams) (s : Store)
    (h : StoreInv s) : StoreInv (trackOk now p s) :=
  ⟨h.1, h.2⟩

theorem storeInv_schedule_social (item : SocialSchedule) (s : Store)
    (h : StoreInv s) : StoreInv (schedule_social item s) := by
  refine ⟨?_, h.2⟩
  intro q hq
  rcases List.mem_append.mp hq with hq | hq
  · exact h.1 q hq
  · simp only [List.mem_singleton] at hq
    subst hq
    simp

theorem storeInv_schedule_email (item : EmailSchedule) (s : Store)
    (h : StoreInv s) : StoreInv (schedule_email item s) := by
  refine ⟨h.1, ?_⟩
  intro q hq
  rcases List.mem_append.mp hq with hq | hq
  · exact h.2 q hq
  · simp only [List.mem_singleton] at hq
    subst hq
    simp

theorem storeInv_create_blog (now : Timestamp) (post : BlogInput) (s : Store)
    (h : StoreInv s) : StoreInv (create_blog now post s).1 := by
  unfold create_blog
  split
  · exact h
  · exact ⟨h.1, h.2⟩

theorem storeInv_sweep (now : Timestamp) (s : Store)
    (h : StoreInv s) : StoreInv (process_due_items now s) := by
  constructor
  · intro q hq
    simp only [process_due_items, List.mem_map] at hq
    obtain ⟨p, hp, rfl⟩ := hq
    by_cases hd : socialDue now p
    · rw [if_pos hd]
      exact iff_of_false (by simp [promoteSocial]) sent_ne_scheduled
    · rw [if_neg hd]
      exact h.1 p hp
  · intro q hq
    simp only [process_due_items, List.mem_map] at hq
    obtain ⟨c, hc, rfl⟩ := hq
    by_cases hd : emailDue now c
    · rw [if_pos hd]
      exact iff_of_false (by simp [promoteEmail]) sent_ne_scheduled
    · rw [if_neg hd]
      exact h.2 c hc

theorem reachable_storeInv (s : Store) (hr : Reachable s) : StoreInv s := by
  induction hr with
  | init => exact storeInv_empty
  | step_track now p _ ih => exact storeInv_trackOk now p _ ih
  | step_social item _ ih => exact storeInv_schedule_social item _ ih
  | step_email item _ ih => exact storeInv_schedule_email item _ ih
  | step_blog now post _ ih => exact storeInv_create_blog now post _ ih
  | step_dispatch now _ ih => exact storeInv_sweep now _ ih

/-- C9: every reachable database satisfies, and scheduling and the
dispatch sweep preserve, the invariant that a social/email row has
sent_at NULL exactly when its status is 'scheduled' (scheduling inserts
'scheduled' rows with NULL sent_at; promotion writes 'sent' and a
non-NULL sent_at in the same UPDATE). -/
theorem schedulable_sent_at_invariant :
    (∀ s, Reachable s → StoreInv s) ∧
    (∀ (item : SocialSchedule) (s : Store), StoreInv s → StoreInv (schedule_social item s)) ∧
    (∀ (item : EmailSchedule) (s : Store), StoreInv s → StoreInv (schedule_email item s)) ∧
    (∀ (now : Timestamp) (s : Store), StoreInv s → StoreInv (process_due_items now s)) :=
  ⟨reachable_storeInv,
   fun item s h => storeInv_schedule_social item s h,
   fun item s h => storeInv_schedule_email item s h,
   fun now s h => storeInv_sweep now s h⟩

/-- Witness for C9: the invariant holds for the concrete reachable
database built by scheduling one social post and sweeping it. -/
theorem schedulable_sent_at_invariant_witness :
    StoreInv (process_due_items wNow (schedule_social ⟨"X", "content", ⟨9, 0⟩⟩ emptyStore)) :=
  schedulable_sent_at_invariant.1 _
    (Reachable.step_dispatch wNow (Reachable.step_social ⟨"X", "content", ⟨9, 0⟩⟩ Reachable.init))

/-- C4: creating a blog post with a fresh slug publishes it (the post is
appended with created_at = updated_at = now); creating one whose slug is
already stored reports the duplicate-slug failure and leaves the whole
database, in particular the original post, unchanged. -/
theorem create_blog_duplicate_slug (now : Timestamp) (post : BlogInput) (s : Store) :
    ((∀ b ∈ s.blog_posts, b.slug ≠ post.slug) →
      (create_blog now post s).2 = CreateBlogResult.published ∧
      (create_blog now post s).1.blog_posts =
        s.blog_posts ++ [⟨post.slug, post.title, post.body, now, now⟩] ∧
      (create_blog now post s).1.metrics = s.metrics ∧
      (create_blog now post s).1.social_posts = s.social_posts ∧
      (create_blog now post s).1.email_campaigns = s.email_campaigns) ∧
    ((∃ b ∈ s.blog_posts, b.slug = post.slug) →
      (create_blog now post s).2 = CreateBlogResult.duplicateSlug ∧
      (create_blog now post s).1 = s) := by
  constructor
  · intro hns
    have hc : s.blog_posts.any (fun b => b.slug == post.slug) = false := by
      simp only [List.any_eq_false, beq_iff_eq]
      exact hns
    unfold create_blog
    rw [if_neg (by simp [hc])]
    exact ⟨rfl, rfl, rfl, rfl, rfl⟩
  · intro hdup
    obtain ⟨b, hb, hslug⟩ := hdup
    have hc : s.blog_posts.any (fun b => b.slug == post.slug) = true :=
      List.any_eq_true.mpr ⟨b, hb, by simp [hslug]⟩
    unfold create_blog
    rw [if_pos hc]
    exact ⟨rfl, rfl⟩

/-- Witness for C4: publishing slug "a" into the empty database succeeds;
publishing slug "a" again fails with the duplicate condition and leaves
the database unchanged. -/
theorem create_blog_duplicate_slug_witness :
    (create_blog wNow ⟨"a", "T1", "B1"⟩ emptyStore).2 = CreateBlogResult.published ∧
    (create_blog wLater ⟨"a", "T2", "B2"⟩
        (create_blog wNow ⟨"a", "T1", "B1"⟩ emptyStore).1).2 = CreateBlogResult.duplicateSlug ∧
    (create_blog wLater ⟨"a", "T2", "B2"⟩
        (create_blog wNow ⟨"a", "T1", "B1"⟩ emptyStore).1).1 =
      (create_blog wNow ⟨"a", "T1", "B1"⟩ emptyStore).1 :=
  ⟨((create_blog_duplicate_slug wNow ⟨"a", "T1", "B1"⟩ emptyStore).1 (by decide)).1,
   ((create_blog_duplicate_slug wLater ⟨"a", "T2", "B2"⟩
      (create_blog wNow ⟨"a", "T1", "B1"⟩ emptyStore).1).2
        ⟨⟨"a", "T1", "B1", wNow, wNow⟩, by decide, rfl⟩).1,
   ((create_blog_duplicate_slug wLater ⟨"a", "T2", "B2"⟩
      (create_blog wNow ⟨"a", "T1", "B1"⟩ emptyStore).1).2
        ⟨⟨"a", "T1", "B1", wNow, wNow⟩, by decide, rfl⟩).2⟩

/-- C5 (amended): whenever the metric INSERT succeeds, /track responds
with the fixed 1x1 transparent GIF for every combination of UTM
parameters and headers; when the INSERT raises, the handler has no
except block, the error propagates, and no GIF response is produced. -/
theorem track_returns_gif_on_success (now : Timestamp) (p : TrackParams) (s : Store) :
    respOf (track false now p s) = some gifResponse := rfl

/-- Counterexample to C5 as stated: with a failing metric write, the
/track handler propagates the storage error and does not return the GIF
payload. -/
theorem track_gif_counterexample :
    ¬ respOf (track true wNow ⟨none, none, none, none, none, none, none, none⟩ emptyStore)
        = some gifResponse := by decide

/-- A dispatch-style metric row dated on day d. -/
def mEvent (d : Int) : Event :=
  ⟨⟨d, 5⟩, none, some "social", none, none, none, none, none, none⟩

/-- A metrics table with events on days 10, 9 and 8. -/
def mStore : Store := ⟨[mEvent 10, mEvent 9, mEvent 8], [], [], []⟩

/-- C3: for N ≥ 1, the summary returns exactly N buckets whose dates are
the contiguous ascending days start, start+1, ..., ending at the query
day (start = today - (N-1)); bucket i counts exactly the stored Events
whose date equals its own date, so an Event dated at the window start is
counted in the first bucket and an Event dated one day earlier matches
no bucket date and is counted nowhere. -/
theorem metrics_summary_window (N : Nat) (hN : 1 ≤ N) (now : Timestamp) (s : Store) :
    (metrics_summary now (N : Int) s).length = N ∧
    (∀ (i : Nat) (h : i < (metrics_summary now (N : Int) s).length),
      (metrics_summary now (N : Int) s)[i].1 = now.day - ((N : Int) - 1) + i) ∧
    (∀ (i : Nat) (h : i < (metrics_summary now (N : Int) s).length),
      (metrics_summary now (N : Int) s)[i].2 =
        (s.metrics.filter (fun e => e.ts.day == now.day - ((N : Int) - 1) + i)).length) ∧
    (∀ (h : N - 1 < (metrics_summary now (N : Int) s).length),
      (metrics_summary now (N : Int) s)[N - 1].1 = now.day) := by
  have hlen : (metrics_summary now (N : Int) s).length = N := by
    simp only [metrics_summary, List.length_map, List.length_range, Int.toNat_natCast]
  have hdate : ∀ (i : Nat) (h : i < (metrics_summary now (N : Int) s).length),
      (metrics_summary now (N : Int) s)[i].1 = now.day - ((N : Int) - 1) + i := by
    intro i h
    simp only [metrics_summary, List.getElem_map, List.getElem_range]
  have hcount : ∀ (i : Nat) (h : i < (metrics_summary now (N : Int) s).length),
      (metrics_summary now (N : Int) s)[i].2 =
        (s.metrics.filter (fun e => e.ts.day == now.day - ((N : Int) - 1) + i)).length := by
    intro i h
    simp only [metrics_summary, List.getElem_map, List.getElem_range]
    rw [List.filter_filter]
    congr 1
    apply List.filter_congr
    intro e _
    by_cases hbe : e.ts.day = now.day - ((N : Int) - 1) + i
    · have hle : now.day - ((N : Int) - 1) ≤ e.ts.day := by
        rw [hbe]
        have : (0 : Int) ≤ (i : Int) := Int.natCast_nonneg i
        omega
      simp [hbe, hle]
    · simp [hbe]
  refine ⟨hlen, hdate, hcount, ?_⟩
  intro h
  rw [hdate (N - 1) h, Nat.cast_sub hN]
  push_cast
  omega

/-- Witness for C3 at N = 2, today = day 10: two buckets, dated 9 and 10;
the stored Event on day 9 (the window start) is counted, the one on
day 8 is not. -/
theorem metrics_summary_window_witness :
    (metrics_summary wNow (2 : Int) mStore).length = 2 ∧
    metrics_summary wNow (2 : Int) mStore = [(9, 1), (10, 1)] :=
  ⟨(metrics_summary_window 2 (by decide) wNow mStore).1, by decide⟩

/-- C10: for days ≤ 0 the bucket comprehension ranges over the empty
range, so the summary returns the empty list whatever Events are stored,
rather than failing. -/
theorem metrics_summary_nonpositive_days (now : Timestamp) (s : Store) (days : Int)
    (h : days ≤ 0) : metrics_summary now days s = [] := by
  simp [metrics_summary, Int.toNat_of_nonpos h]

/-- Witness for C10 at days = 0 and days = -3 over a store with Events. -/
theorem metrics_summary_nonpositive_days_witness :
    metrics_summary wNow (0 : Int) mStore = [] ∧ metrics_summary wNow (-3 : Int) mStore = [] :=
  ⟨metrics_summary_nonpositive_days wNow mStore 0 (by decide),
   metrics_summary_nonpositive_days wNow mStore (-3) (by decide)⟩

instance blogDescTotal : IsTotal BlogPost (fun a b => timeLe b.updated_at a.updated_at = true) :=
  ⟨fun a b => timeLe_total b.updated_at a.updated_at⟩

instance blogDescTrans : IsTrans BlogPost (fun a b => timeLe b.updated_at a.updated_at = true) :=
  ⟨fun _ _ _ hab hbc => timeLe_trans _ _ _ hbc hab⟩

theorem sortPostsDesc_sorted (l : List BlogPost) :
    List.Sorted (fun a b => timeLe b.updated_at a.updated_at = true) (sortPostsDesc l) :=
  List.sorted_insertionSort _ l

theorem sortPostsDesc_perm (l : List BlogPost) : (sortPostsDesc l).Perm l :=
  List.perm_insertionSort _ l

/-- Blog posts for the feed witness. -/
def bPost1 : BlogPost := ⟨"a", "T1", "Body one", ⟨1, 0⟩, ⟨1, 0⟩⟩

def bPost2 : BlogPost := ⟨"b", "T2", "Body two", ⟨2, 0⟩, ⟨2, 0⟩⟩

def bStore : Store := ⟨[], [], [], [bPost1, bPost2]⟩

def bItem : RssItem := ⟨"T2", "http://localhost:8000/blog/b", strTake 400 "Body two" ++ "..."⟩

/-- C8: the RSS feed has min(20, number of posts) items, taken from the
start of the updated_at-descending ordering of all posts (so the 20 most
recently updated), each item's description holding the first 400
characters of the corresponding post's body; the sitemap has exactly one
entry per stored post and is ordered by last-modified descending. -/
theorem feeds_spec (base : String) (s : Store) :
    (rss base s).length = min 20 s.blog_posts.length ∧
    (∀ it ∈ rss base s, ∃ p ∈ s.blog_posts,
      it.title = p.title ∧ it.link = base ++ "/blog/" ++ p.slug ∧
      it.description = strTake 400 p.body ++ "..." ∧ (strTake 400 p.body).length ≤ 400) ∧
    List.Sorted (fun a b : BlogPost => timeLe b.updated_at a.updated_at = true)
      (sortPostsDesc s.blog_posts) ∧
    (sortPostsDesc s.blog_posts).Perm s.blog_posts ∧
    (sitemap base s).length = s.blog_posts.length ∧
    List.Sorted (fun a b : SitemapEntry => timeLe b.lastmod a.lastmod = true)
      (sitemap base s) := by
  refine ⟨?_, ?_, sortPostsDesc_sorted _, sortPostsDesc_perm _, ?_, ?_⟩
  · simp [rss, List.length_take, (sortPostsDesc_perm s.blog_posts).length_eq]
  · intro it hit
    simp only [rss, List.mem_map] at hit
    obtain ⟨p, hp, rfl⟩ := hit
    have hps : p ∈ sortPostsDesc s.blog_posts := List.mem_of_mem_take hp
    have hmem : p ∈ s.blog_posts := (sortPostsDesc_perm s.blog_posts).mem_iff.mp hps
    exact ⟨p, hmem, rfl, rfl, rfl, strTake_length_le 400 p.body⟩
  · simp [sitemap, (sortPostsDesc_perm s.blog_posts).length_eq]
  · exact List.Pairwise.map _ (fun a b hab => hab) (sortPostsDesc_sorted s.blog_posts)

/-- Witness for C8 on a two-post store: the feed length matches and the
first feed item (the most recently updated post) has the truncated-body
description. -/
theorem feeds_spec_witness :
    (rss "http://localhost:8000" bStore).length = min 20 bStore.blog_posts.length ∧
    (∃ p ∈ bStore.blog_posts, bItem.title = p.title ∧
      bItem.link = "http://localhost:8000" ++ "/blog/" ++ p.slug ∧
      bItem.description = strTake 400 p.body ++ "..." ∧ (strTake 400 p.body).length ≤ 400) :=
  ⟨(feeds_spec "http://localhost:8000" bStore).1,
   (feeds_spec "http://localhost:8000" bStore).2.1 bItem (by decide)⟩
